import Mathlib

/-!
Verification of the tinygo-mqtt MQTT 5 client library.

This file contains a shallow embedding, in Lean 4, of the parts of the
Go source that the specification claims talk about:

* the two variable-byte-integer codecs (package packets and package
  primitives),
* the fixed-header nibble accessors (packets.FixedHeader),
* the wildcard topic matcher (Client.matchTopic),
* the session/quota state machine of the client (Connect bookkeeping,
  Poll dispatch for PUBLISH/PUBACK/PUBREC/PUBCOMP, the Disconnect paths),
* the CONNACK decoder, the PUBLISH encoder/decoder and the CONNECT
  encoder (variable-header properties section).

Byte streams are modelled as `List Nat` (each element a byte value);
machine integers are modelled as `Nat` with explicit `% 2^w` at the
points where the Go code can overflow.  Fallible reads return `Option`
(or an explicit result type distinguishing end-of-stream from a
malformed-packet error where the source does).
-/

set_option maxRecDepth 10000
set_option linter.unusedVariables false

/-! ## Byte-level helpers (package primitives: Read/Write wrappers) -/

/-- Big-endian encoding of a 16-bit value (binary.BigEndian.PutUint16). -/
def u16be (v : Nat) : List Nat := [v / 256 % 256, v % 256]

/-- Big-endian encoding of a 32-bit value (binary.BigEndian.PutUint32). -/
def u32be (v : Nat) : List Nat :=
  [v / 16777216 % 256, v / 65536 % 256, v / 256 % 256, v % 256]

/-- Big-endian decoding of two bytes (binary.BigEndian.Uint16). -/
def be16 (bs : List Nat) : Nat :=
  match bs with
  | [a, b] => a * 256 + b
  | _ => 0

/-- Big-endian decoding of four bytes (binary.BigEndian.Uint32). -/
def be32 (bs : List Nat) : Nat :=
  match bs with
  | [a, b, c, d] => a * 16777216 + b * 65536 + c * 256 + d
  | _ => 0

/-- Read a single byte from the stream (primitives.ReadByte: errors at
end of stream, otherwise consumes one byte). -/
def rdByte (s : List Nat) : Option (Nat × Nat × List Nat) :=
  match s with
  | [] => none
  | b :: rest => some (b % 256, 1, rest)

/-- One call to io.Reader.Read with a buffer of size k: returns the
bytes obtained, the count, and the remaining stream.  A single Read
returns at most what is available; it errors only when the stream is
empty and at least one byte was requested (io.EOF). -/
def rdN (k : Nat) (s : List Nat) : Option (List Nat × Nat × List Nat) :=
  if k = 0 then some ([], 0, s)
  else if s.isEmpty then none
  else
    let c := min k s.length
    some (s.take c, c, s.drop c)

/-- primitives.PrimitiveUint16.ReadFrom: one Read of 2 bytes; a short
read is io.ErrUnexpectedEOF. -/
def rdUint16 (s : List Nat) : Option (Nat × Nat × List Nat) :=
  match rdN 2 s with
  | none => none
  | some (bs, c, rest) => if c ≠ 2 then none else some (be16 bs, 2, rest)

/-- primitives.PrimitiveUint32.ReadFrom: one Read of 4 bytes; a short
read is io.ErrUnexpectedEOF. -/
def rdUint32 (s : List Nat) : Option (Nat × Nat × List Nat) :=
  match rdN 4 s with
  | none => none
  | some (bs, c, rest) => if c ≠ 4 then none else some (be32 bs, 4, rest)

/-- Convert a list of byte values to a string (Go string(buf)). -/
def bytesToString (bs : List Nat) : String :=
  String.mk (bs.map Char.ofNat)

/-- UTF-8 bytes of a string; the topics and strings exercised here are
ASCII, for which the code-point value is the byte value. -/
def strToBytes (s : String) : List Nat :=
  s.data.map Char.toNat

/-- primitives.PrimitiveString.ReadFrom: a 2-byte big-endian length read
with binary.Read (which requires exactly 2 bytes), then a single Read
into a buffer of that length; a short read leaves the tail of the buffer
zeroed and only the obtained count is added to n. -/
def rdString (s : List Nat) : Option (String × Nat × List Nat) :=
  if s.length < 2 then none
  else
    let len := be16 (s.take 2)
    let rest := s.drop 2
    if len ≠ 0 ∧ rest.isEmpty then none
    else
      let c := min len rest.length
      some (bytesToString (rest.take c ++ List.replicate (len - c) 0), 2 + c, rest.drop c)

/-- primitives.PrimitiveString.WriteTo: 16-bit big-endian length then
the bytes of the string. -/
def strFieldBytes (s : String) : List Nat :=
  u16be (strToBytes s).length ++ strToBytes s

/-- Go uint16 increment (x++ on a uint16 field). -/
def u16inc (x : Nat) : Nat := (x + 1) % 65536

/-- Go uint16 decrement (x-- on a uint16 field; wraps at zero). -/
def u16dec (x : Nat) : Nat := (x + 65535) % 65536

/-! ## Variable byte integer, package packets (part "packets": Length,
WriteTo with a capacity-4 backing array, ReadFrom bounded by
multiplier < 27) -/

/-- packets.VariableByteInt.Length: 1-4 bytes, 0 on overflow. -/
def packetsVBILength (v : Nat) : Nat :=
  if v < 128 then 1
  else if v < 16384 then 2
  else if v < 2097152 then 3
  else if v ≤ 268435455 then 4
  else 0

/-- Loop of packets.VariableByteInt.WriteTo.  The Go code re-slices a
capacity-4 array to i+1 elements before storing each digit; when a fifth
digit is needed the re-slice is out of range and the program panics, so
no encoding is produced (modelled as `none`).  The `fuel` argument only
bounds the recursion: the index check `i + 1 > 4` stops the loop after
at most five iterations, so a fuel of 5 is never exhausted. -/
def packetsVBIWriteAux : Nat → Nat → Nat → List Nat → Option (List Nat)
  | 0, _, _, _ => none
  | fuel + 1, v, i, acc =>
    if i + 1 > 4 then none
    else if v / 128 = 0 then some (acc ++ [v % 128])
    else packetsVBIWriteAux fuel (v / 128) (i + 1) (acc ++ [v % 128 ||| 128])

/-- packets.VariableByteInt.WriteTo: base-128 little-endian digits with
continuation bits; panics (none) when more than 4 bytes are needed. -/
def packetsVBIWrite (v : Nat) : Option (List Nat) :=
  packetsVBIWriteAux 5 v 0 []

/-- Result of a variable-byte-integer decode: the decoded value, the
number of bytes consumed and the rest of the stream; or end-of-stream;
or the explicit malformed error (only produced by the primitives
decoder). -/
inductive VbiResult where
  | ok (val n : Nat) (rest : List Nat)
  | errEof
  | errMalformed
deriving DecidableEq, Repr

/-- Loop of packets.VariableByteInt.ReadFrom: runs while
multiplier < 27 (so at most 4 bytes are consumed); the accumulated value
is OR-ed into the receiver.  Exiting because the multiplier reached 28
returns successfully without an error: a continuation bit on the fourth
byte is silently ignored. -/
def packetsVBIReadAux : List Nat → Nat → Nat → Nat → VbiResult
  | [], val, multiplier, n =>
    if multiplier < 27 then .errEof else .ok val n []
  | digit :: rest, val, multiplier, n =>
    if multiplier < 27 then
      if digit &&& 128 = 0 then
        .ok (val ||| ((digit &&& 127) <<< multiplier)) (n + 1) rest
      else
        packetsVBIReadAux rest (val ||| ((digit &&& 127) <<< multiplier)) (multiplier + 7) (n + 1)
    else .ok val n (digit :: rest)

/-- packets.VariableByteInt.ReadFrom with the receiver initially holding
`init` (the call sites use a zero receiver). -/
def packetsVBIRead (s : List Nat) (init : Nat) : VbiResult :=
  packetsVBIReadAux s init 0 0

/-! ## Variable byte integer, package primitives (the 2022-2023 file:
Length with property increment, append-based WriteTo, ReadFrom with an
explicit "malformed variable byte integer" error but no byte cap) -/

/-- primitives.VariableByteInt.Length: early-returns 0 on overflow,
otherwise one extra byte when used as a property. -/
def primVBILength (v : Nat) (property : Bool) : Nat :=
  if v < 128 then (if property then 2 else 1)
  else if v < 16384 then (if property then 3 else 2)
  else if v < 2097152 then (if property then 4 else 3)
  else if v ≤ 268435455 then (if property then 5 else 4)
  else 0

/-- Loop of primitives.VariableByteInt.WriteTo: appends digits with no
capacity limit.  The receiver is a uint32, so at most five base-128
digits are ever produced; the fuel of 6 supplied below is never
exhausted (exhaustion returns the accumulator unchanged). -/
def primVBIWriteAux : Nat → Nat → List Nat → List Nat
  | 0, _, acc => acc
  | fuel + 1, v, acc =>
    if v / 128 = 0 then acc ++ [v % 128]
    else primVBIWriteAux fuel (v / 128) (acc ++ [v % 128 ||| 128])

/-- primitives.VariableByteInt.WriteTo (the receiver is a uint32). -/
def primVBIWrite (v : Nat) : List Nat :=
  primVBIWriteAux 6 (v % 4294967296) []

/-- Loop of primitives.VariableByteInt.ReadFrom: accumulates
(b & 127) << mul into a uint32 (the shift result wraps modulo 2^32, and
is 0 once mul ≥ 32, exactly as in Go), errors with "malformed variable
byte integer" as soon as the accumulated value exceeds 268 435 455, and
otherwise keeps reading while the continuation bit is set — there is no
four-byte cap. -/
def primVBIReadAux (s : List Nat) (val mul n : Nat) : VbiResult :=
  match s with
  | [] => .errEof
  | b :: rest =>
    let val2 := val ||| (((b &&& 127) <<< mul) % 4294967296)
    if val2 > 268435455 then .errMalformed
    else if b &&& 128 = 0 then .ok val2 (n + 1) rest
    else primVBIReadAux rest val2 (mul + 7) (n + 1)

/-- primitives.VariableByteInt.ReadFrom. -/
def primVBIRead (s : List Nat) : VbiResult :=
  primVBIReadAux s 0 0 0

/-- True exactly on the explicit malformed-packet error outcome. -/
def vbiIsMalformed : VbiResult → Bool
  | .errMalformed => true
  | _ => false

/-- Bytes consumed by a successful decode (0 on error). -/
def vbiCount : VbiResult → Nat
  | .ok _ n _ => n
  | _ => 0

/-- Value produced by a successful decode (0 on error). -/
def vbiOkVal : VbiResult → Nat
  | .ok v _ _ => v
  | _ => 0

/-! ## packets.FixedHeader nibble accessors -/

/-- FixedHeader.SetType: `f.Header &= ^(f.Header & 0xF0);
f.Header |= byte(packetType << 4)`.  The complement is the 8-bit
complement (xor with 0xFF) and the byte conversion wraps modulo 256. -/
def setType (h t : Nat) : Nat :=
  (h &&& ((h &&& 0xF0) ^^^ 0xFF)) ||| ((t <<< 4) % 256)

/-- FixedHeader.GetType: upper nibble. -/
def getType (h : Nat) : Nat := h >>> 4

/-- FixedHeader.SetFlags: `f.Header &= ^(f.Header & 0x0F);
f.Header |= flags & 0x0F`. -/
def setFlags (h f : Nat) : Nat :=
  (h &&& ((h &&& 0x0F) ^^^ 0xFF)) ||| (f &&& 0x0F)

/-- FixedHeader.GetFlags: lower nibble. -/
def getFlags (h : Nat) : Nat := h &&& 0x0F

/-! ## Client.matchTopic -/

/-- The inner fast-forward of matchTopic on a `+` wildcard: advance
topicPos to the next `/` or to the end of the topic.  The fuel bounds
the loop; each step advances the position, so `topic.length + 1` steps
always suffice (exhaustion returns the position unchanged). -/
def ffwdAux : Nat → List Char → Nat → Nat
  | 0, _, pos => pos
  | fuel + 1, topic, pos =>
    if pos < topic.length ∧ topic.getD pos ' ' ≠ '/' then ffwdAux fuel topic (pos + 1)
    else pos

/-- The `+`-wildcard fast-forward with sufficient fuel. -/
def ffwd (topic : List Char) (pos : Nat) : Nat :=
  ffwdAux (topic.length + 1) topic pos

/-- The main loop of Client.matchTopic, indexed by the current filter
and topic positions.  Each branch mirrors the Go loop body, including
the `filterPos >= len(topic)` length check (which uses the filter
position, exactly as the source does). -/
def matchTopicAux : Nat → List Char → List Char → Nat → Nat → Bool
  | 0, _, _, _, _ => false
  | fuel + 1, topic, filter, filterPos, topicPos =>
    if filterPos < filter.length then
      if filter.getD filterPos ' ' = '#' then
        if filter.length = 1 then true
        else if (filterPos ≠ 0 ∧ filter.getD (filterPos - 1) ' ' ≠ '/')
                ∨ filterPos ≠ filter.length - 1 then false
        else true
      else if filter.getD filterPos ' ' = '+' then
        if (filterPos ≠ 0 ∧ filter.getD (filterPos - 1) ' ' ≠ '/')
           ∨ (filterPos ≠ filter.length - 1 ∧ filter.getD (filterPos + 1) ' ' ≠ '/') then false
        else
          let topicPos2 := ffwd topic topicPos
          if topicPos2 = topic.length then true
          else matchTopicAux fuel topic filter (filterPos + 1) topicPos2
      else if filterPos ≥ topic.length then false
      else if filter.getD filterPos ' ' ≠ topic.getD topicPos ' ' then false
      else matchTopicAux fuel topic filter (filterPos + 1) (topicPos + 1)
    else
      if filter.length ≠ topic.length ∧ topicPos < topic.length then false
      else true

/-- Client.matchTopic.  The loop advances the filter position on every
iteration, so a fuel of `filter.length + 1` always reaches the loop
exit; exhaustion (unreachable with that fuel) yields false. -/
def matchTopic (topic filter : String) : Bool :=
  matchTopicAux (filter.data.length + 1) topic.data filter.data 0 0

/-! ## Client session state and the quota/disconnect operations

The session fields of mqtt.Client that the claims mention.  The two
quota counters and the receive maxima are uint16 fields; they are held
as `Nat` values below 65536, and the Go `++`/`--` on them is modelled
with `u16inc`/`u16dec`.  Event fan-out (Client.signal) and the storage
interface only touch foreign sinks, never these fields or the
transport, and are not modelled. -/

structure ClientState where
  isConnected : Bool
  keepAliveInterval : Nat
  sessionExpiryInterval : Nat
  clientReceiveMaximum : Nat
  serverReceiveMaximum : Nat
  sendQuota : Nat
  receiveQuota : Nat
deriving DecidableEq, Repr

/-- A packet written to the transport by one of the modelled
operations. -/
inductive Wire where
  | disconnect (reasonCode sessionExpiry : Nat)
  | puback (pid : Nat)
  | pubrec (pid : Nat)
  | pubrel (pid : Nat)
  | publishPkt (qos pid : Nat)
deriving DecidableEq, Repr

/-- The error values of package mqtt that the modelled paths return. -/
inductive ClientErr where
  | clientNotConnected
  | controlPacketIsMalformed
  | wouldBlockOnSendQuota
  | reasonCodeErr (code : Nat)
deriving DecidableEq, Repr

/-- Observable outcome of one modelled operation: the resulting session
state, the packets written to the transport, whether the transport was
closed, and the returned error (none on success). -/
structure StepResult where
  state : ClientState
  wrote : List Wire
  closedConn : Bool
  error : Option ClientErr
deriving DecidableEq, Repr

/-- Client.disconnectWithReason (client.go).  The guard is transcribed
exactly as written in the source: `if c.isConnected { return
ErrClientNotConnected }` — the error is returned when the client IS
connected, and the DISCONNECT/close path runs only when it is not.
The DISCONNECT packet carries the given reason code; the
session-expiry-interval assignment is commented out in the source, so
the session expiry field of the packet is always zero. -/
def disconnectWithReason (s : ClientState) (reason : Nat) : StepResult :=
  if s.isConnected then
    { state := s, wrote := [], closedConn := false, error := some .clientNotConnected }
  else
    { state := { s with isConnected := false }
      wrote := [.disconnect reason 0]
      closedConn := true
      error := none }

/-- Client.DisconnectWithSessionExpiry (client.go).  Same inverted
guard as disconnectWithReason.  With publishWill the reason code is
0x04; the requested session expiry goes on the wire only when the
CONNECT session expiry was non-zero. -/
def disconnectWithSessionExpiry (s : ClientState) (publishWill : Bool)
    (sessionExpiryInterval : Nat) : StepResult :=
  if s.isConnected then
    { state := s, wrote := [], closedConn := false, error := some .clientNotConnected }
  else
    let reason := if publishWill then 0x04 else 0
    let expiry := if s.sessionExpiryInterval ≠ 0 then sessionExpiryInterval else 0
    { state := { s with isConnected := false }
      wrote := [.disconnect reason expiry]
      closedConn := true
      error := none }

/-- Client.Disconnect delegates to DisconnectWithSessionExpiry with a
zero expiry. -/
def disconnectOp (s : ClientState) (publishWill : Bool) : StepResult :=
  disconnectWithSessionExpiry s publishWill 0

/-- The tail of the PUBLISH case of Poll after the receive-quota check:
send
the acknowledgement matching the QoS (sendPuback for QoS 1, which also
increments the receive quota after the write; sendPubrec for QoS 2).
Both reject a zero packet identifier as malformed. -/
def pollPublishAck (s : ClientState) (qos pid : Nat) (wrote : List Wire)
    (closed : Bool) : StepResult :=
  if qos = 1 then
    if pid = 0 then
      { state := s, wrote := wrote, closedConn := closed, error := some .controlPacketIsMalformed }
    else
      { state := { s with receiveQuota := u16inc s.receiveQuota }
        wrote := wrote ++ [.puback pid], closedConn := closed, error := none }
  else if qos = 2 then
    if pid = 0 then
      { state := s, wrote := wrote, closedConn := closed, error := some .controlPacketIsMalformed }
    else
      { state := s, wrote := wrote ++ [.pubrec pid], closedConn := closed, error := none }
  else
    { state := s, wrote := wrote, closedConn := closed, error := none }

/-- Poll, PUBLISH case (client.go), after the packet is decoded.  When
the receive quota is zero and the QoS is positive the source calls
disconnectWithReason(0x93); a non-nil error from that call makes Poll
return it.  Otherwise the receive quota is decremented (a uint16
decrement, taken on this branch even for QoS 0) and the matching
acknowledgement is sent. -/
def pollPublish (s : ClientState) (qos pid : Nat) : StepResult :=
  if s.receiveQuota = 0 ∧ qos > 0 then
    let d := disconnectWithReason s 0x93
    match d.error with
    | some e =>
      { state := d.state, wrote := d.wrote, closedConn := d.closedConn, error := some e }
    | none => pollPublishAck d.state qos pid d.wrote d.closedConn
  else
    pollPublishAck { s with receiveQuota := u16dec s.receiveQuota } qos pid [] false

/-- Poll, PUBACK case (client.go): the send quota is incremented when it
is below the server receive maximum (also releasing a blocked Publish,
not modelled), and a persisted entry is dropped. -/
def pollPuback (s : ClientState) (pid : Nat) : StepResult :=
  let s2 := if s.sendQuota < s.serverReceiveMaximum
            then { s with sendQuota := u16inc s.sendQuota } else s
  { state := s2, wrote := [], closedConn := false, error := none }

/-- Poll, PUBREC case (client.go): the send quota is incremented only
when the reason code is STRICTLY greater than 0x80 (`pubrec.ReasonCode >
0x80` in the source, although the comment above it reads "0x80 or
greater") and the quota is below the server receive maximum; then a
PUBREL packet is written. -/
def pollPubrec (s : ClientState) (pid reasonCode : Nat) : StepResult :=
  let s2 := if reasonCode > 0x80 then
              (if s.sendQuota < s.serverReceiveMaximum
               then { s with sendQuota := u16inc s.sendQuota } else s)
            else s
  { state := s2, wrote := [.pubrel pid], closedConn := false, error := none }

/-- Poll, PUBCOMP case (client.go): same send-quota increment as the
PUBACK case, plus dropping the persisted PUBREC entry. -/
def pollPubcomp (s : ClientState) (pid : Nat) : StepResult :=
  let s2 := if s.sendQuota < s.serverReceiveMaximum
            then { s with sendQuota := u16inc s.sendQuota } else s
  { state := s2, wrote := [], closedConn := false, error := none }

/-- Client.Publish (client.go).  Requires the connected state; assigns
a random identifier when none is set on a QoS>0 publish; when the send
quota is zero and QoS>0 the call suspends on the send semaphore until a
Poll on another goroutine releases it — the suspension is reported here
as `wouldBlockOnSendQuota` with no write.  On the non-blocking path the
packet is written and, for QoS>0, the send quota is decremented. -/
def publishSend (s : ClientState) (qos pid rngVal : Nat) : StepResult :=
  if !s.isConnected then
    { state := s, wrote := [], closedConn := false, error := some .clientNotConnected }
  else
    let pid2 := if qos > 0 ∧ pid = 0 then rngVal % 65536 else pid
    if s.sendQuota = 0 ∧ qos > 0 then
      { state := s, wrote := [], closedConn := false, error := some .wouldBlockOnSendQuota }
    else
      let s2 := if qos > 0 then { s with sendQuota := u16dec s.sendQuota } else s
      { state := s2, wrote := [.publishPkt qos pid2], closedConn := false, error := none }

/-! ## CONNACK decoding (packets.Connack.ReadFrom) and the Connect
bookkeeping of mqtt.Client.Connect -/

/-- The fields of packets.Connack.  The struct literal in Connect
initialises every field to its zero value; ReadFrom only overwrites a
field when the corresponding property identifier occurs in the
properties block. -/
structure ConnackFields where
  flags : Nat := 0
  reasonCode : Nat := 0
  sessionExpiryInterval : Nat := 0
  receiveMaximum : Nat := 0
  maximumQoS : Nat := 0
  retainAvailable : Nat := 0
  maximumPacketSize : Nat := 0
  clientId : String := ""
  topicAliasMaximum : Nat := 0
  reasonString : String := ""
  userProperties : List (String × String) := []
  wildcardSubscriptions : Nat := 0
  subscriptionIdentifiers : Nat := 0
  sharedSubscriptions : Nat := 0
  serverKeepAlive : Nat := 0
  responseInformation : String := ""
  serverReference : String := ""
  authenticationMethod : String := ""
  authenticationData : String := ""
deriving DecidableEq, Repr

/-- One iteration body of the properties loop of Connack.ReadFrom:
dispatch on the identifier byte and decode the typed value.  Returns the
updated fields, the count this case produced, and the rest of the
stream.  An identifier outside the recognised set matches no case, so
the fields and the stream are untouched and `count` keeps its stale
value from the previous read — exactly as in the source, where `count`
is only assigned inside the cases. -/
def connackPropCase (identifier : Nat) (ck : ConnackFields) (count : Nat)
    (s : List Nat) : Option (ConnackFields × Nat × List Nat) :=
  if identifier = 0x11 then
    (rdUint32 s).map fun r => ({ ck with sessionExpiryInterval := r.1 }, r.2.1, r.2.2)
  else if identifier = 0x21 then
    (rdUint16 s).map fun r => ({ ck with receiveMaximum := r.1 }, r.2.1, r.2.2)
  else if identifier = 0x24 then
    (rdByte s).map fun r => ({ ck with maximumQoS := r.1 }, r.2.1, r.2.2)
  else if identifier = 0x25 then
    (rdByte s).map fun r => ({ ck with retainAvailable := r.1 }, r.2.1, r.2.2)
  else if identifier = 0x27 then
    (rdUint32 s).map fun r => ({ ck with maximumPacketSize := r.1 }, r.2.1, r.2.2)
  else if identifier = 0x12 then
    (rdString s).map fun r => ({ ck with clientId := r.1 }, r.2.1, r.2.2)
  else if identifier = 0x22 then
    (rdUint16 s).map fun r => ({ ck with topicAliasMaximum := r.1 }, r.2.1, r.2.2)
  else if identifier = 0x1F then
    (rdString s).map fun r => ({ ck with reasonString := r.1 }, r.2.1, r.2.2)
  else if identifier = 0x26 then
    match rdString s with
    | none => none
    | some (k, c1, s1) =>
      match rdString s1 with
      | none => none
      | some (v, c2, s2) =>
        some ({ ck with userProperties := ck.userProperties ++ [(k, v)] }, c1 + c2, s2)
  else if identifier = 0x28 then
    (rdByte s).map fun r => ({ ck with wildcardSubscriptions := r.1 }, r.2.1, r.2.2)
  else if identifier = 0x29 then
    (rdByte s).map fun r => ({ ck with subscriptionIdentifiers := r.1 }, r.2.1, r.2.2)
  else if identifier = 0x2A then
    (rdByte s).map fun r => ({ ck with sharedSubscriptions := r.1 }, r.2.1, r.2.2)
  else if identifier = 0x13 then
    (rdUint16 s).map fun r => ({ ck with serverKeepAlive := r.1 }, r.2.1, r.2.2)
  else if identifier = 0x1A then
    (rdString s).map fun r => ({ ck with responseInformation := r.1 }, r.2.1, r.2.2)
  else if identifier = 0x1C then
    (rdString s).map fun r => ({ ck with serverReference := r.1 }, r.2.1, r.2.2)
  else if identifier = 0x15 then
    (rdString s).map fun r => ({ ck with authenticationMethod := r.1 }, r.2.1, r.2.2)
  else if identifier = 0x16 then
    (rdString s).map fun r => ({ ck with authenticationData := r.1 }, r.2.1, r.2.2)
  else
    some (ck, count, s)

/-- The properties loop of Connack.ReadFrom: while the remaining
property length is positive, read an identifier byte and dispatch.  The
remaining length is an int64 that the stale-count subtraction can drive
negative, hence `Int`.  Each iteration consumes at least the identifier
byte from `remaining`, so the fuel (the initial properties length) is
never exhausted. -/
def connackPropsLoop : Nat → Int → Nat → Nat → ConnackFields → List Nat →
    Option (ConnackFields × Nat × List Nat)
  | 0, remaining, _, n, ck, s =>
    if remaining ≤ 0 then some (ck, n, s) else none
  | fuel + 1, remaining, count, n, ck, s =>
    if remaining ≤ 0 then some (ck, n, s)
    else
      match rdByte s with
      | none => none
      | some (identifier, _, s1) =>
        match connackPropCase identifier ck count s1 with
        | none => none
        | some (ck2, count2, s2) =>
          connackPropsLoop fuel (remaining - 1 - (count2 : Int)) count2 (n + 1 + count2) ck2 s2

/-- packets.Connack.ReadFrom over a byte stream, given the remaining
length from the fixed header.  After the variable-header flags and
reason code, and again after the properties length, the source
early-returns as soon as the running count reaches the remaining
length; at the very end it adds the whole remaining length to the
count once more (as the source does).  Returns the decoded fields, the
returned count n, and the unconsumed stream. -/
def connackReadFrom (remaining : Nat) (s : List Nat) :
    Option (ConnackFields × Nat × List Nat) :=
  match rdByte s with
  | none => none
  | some (flagsByte, c1, s1) =>
    let ck0 : ConnackFields := { flags := flagsByte }
    if c1 ≥ remaining then some (ck0, c1, s1)
    else
      match rdByte s1 with
      | none => none
      | some (reasonByte, c2, s2) =>
        let ck1 := { ck0 with reasonCode := reasonByte }
        if c1 + c2 ≥ remaining then some (ck1, c1 + c2, s2)
        else
          match primVBIRead s2 with
          | .errEof => none
          | .errMalformed => none
          | .ok propsLen c3 s3 =>
            let n0 := c1 + c2 + c3
            if n0 ≥ remaining then some (ck1, n0, s3)
            else
              match connackPropsLoop propsLen (propsLen : Int) c3 n0 ck1 s3 with
              | none => none
              | some (ck2, n1, s4) => some (ck2, n1 + remaining, s4)

/-- mqtt.Client.Connect, the bookkeeping performed after a CONNACK with
a reason code below 128 has been decoded (client.go): adopt the server
keep-alive when present, record the receive maxima, initialise both
quotas, remember the CONNECT session expiry and mark the client
connected.  A reason code of 128 or more closes the connection and
returns the reason-code error instead. -/
structure ConnectPacketFields where
  keepAlive : Nat := 0
  receiveMaximum : Nat := 0
  sessionExpiryInterval : Nat := 0
deriving DecidableEq, Repr

/-- The state update of Client.Connect once the CONNACK packet has been
decoded (client.go): reason codes of 128 or more close the connection
and surface the reason code; otherwise the keep-alive, the receive
maxima, the quotas, the session expiry and the connected flag are set
exactly as in the source.  `server_receive_maximum` is whatever value
the decoded CONNACK carries in its ReceiveMaximum field — there is no
defaulting step anywhere on this path. -/
def connectFinish (s : ClientState) (pkt : ConnectPacketFields)
    (ck : ConnackFields) : StepResult :=
  if ck.reasonCode ≥ 128 then
    { state := s, wrote := [], closedConn := true, error := some (.reasonCodeErr ck.reasonCode) }
  else
    let keepAlive := if ck.serverKeepAlive > 0 then ck.serverKeepAlive
                     else if pkt.keepAlive > 0 then pkt.keepAlive
                     else s.keepAliveInterval
    let srm := ck.receiveMaximum
    let crm := if pkt.receiveMaximum = 0 then srm else pkt.receiveMaximum
    { state :=
        { s with
          keepAliveInterval := keepAlive
          serverReceiveMaximum := srm
          clientReceiveMaximum := crm
          sendQuota := srm
          receiveQuota := crm
          sessionExpiryInterval := pkt.sessionExpiryInterval
          isConnected := true }
      wrote := []
      closedConn := false
      error := none }

/-! ## packets.Publish encoder and decoder -/

/-- The fields of packets.Publish (flags, variable header, properties
and payload). -/
structure PublishFields where
  retain : Bool := false
  qos : Nat := 0
  duplicate : Bool := false
  topic : String := ""
  packetIdentifier : Nat := 0
  payload : List Nat := []
  messageExpiryInterval : Nat := 0
  topicAlias : Nat := 0
  responseTopic : String := ""
  correlationData : String := ""
  userProperties : List (String × String) := []
  subscriptionIdentifier : Nat := 0
  contentType : String := ""
deriving DecidableEq, Repr

/-- Properties length computed by Publish.WriteTo: each present
property contributes its Length(true) (value length plus one identifier
byte). -/
def publishPropsLen (p : PublishFields) : Nat :=
  (if p.messageExpiryInterval > 0 then 5 else 0) +
  (if p.topicAlias > 0 then 3 else 0) +
  (if (strToBytes p.responseTopic).length > 0 then 2 + (strToBytes p.responseTopic).length + 1 else 0) +
  (if (strToBytes p.correlationData).length > 0 then 2 + (strToBytes p.correlationData).length + 1 else 0) +
  (p.userProperties.foldl
    (fun acc kv => acc + 1 + (2 + (strToBytes kv.1).length) + (2 + (strToBytes kv.2).length)) 0) +
  (if p.subscriptionIdentifier > 0 then primVBILength p.subscriptionIdentifier true else 0) +
  (if (strToBytes p.contentType).length > 0 then 2 + (strToBytes p.contentType).length + 1 else 0)

/-- The properties block emitted by Publish.WriteTo, in source order. -/
def publishPropsBytes (p : PublishFields) : List Nat :=
  (if p.messageExpiryInterval > 0 then 0x02 :: u32be p.messageExpiryInterval else []) ++
  (if p.topicAlias > 0 then 0x23 :: u16be p.topicAlias else []) ++
  (if (strToBytes p.responseTopic).length > 0 then 0x08 :: strFieldBytes p.responseTopic else []) ++
  (if (strToBytes p.correlationData).length > 0 then 0x09 :: strFieldBytes p.correlationData else []) ++
  (p.userProperties.foldl
    (fun acc kv => acc ++ 0x26 :: (strFieldBytes kv.1 ++ strFieldBytes kv.2)) []) ++
  (if p.subscriptionIdentifier > 0 then 0x0B :: primVBIWrite p.subscriptionIdentifier else []) ++
  (if (strToBytes p.contentType).length > 0 then 0x03 :: strFieldBytes p.contentType else [])

/-- Flags byte assembled by Publish.WriteTo: bit 0 retain, bits 1-2
QoS, bit 3 duplicate (byte arithmetic, wrapping modulo 256). -/
def publishFlags (p : PublishFields) : Nat :=
  ((if p.retain then 1 else 0) ||| ((p.qos <<< 1) % 256) ||| (if p.duplicate then 8 else 0)) % 256

/-- Remaining length computed by Publish.WriteTo: topic field, packet
identifier (unconditionally two bytes), properties length field,
properties, payload. -/
def publishRemainingLen (p : PublishFields) : Nat :=
  (2 + (strToBytes p.topic).length) + 2
    + primVBILength (publishPropsLen p) false + publishPropsLen p
    + p.payload.length

/-- packets.Publish.WriteTo.  A zero-length topic without a topic alias
is rejected as malformed (none).  The fixed header byte is built with
SetType(PUBLISH) and SetFlags; the topic, the packet identifier (written
for every QoS), the properties length, the properties and the payload
follow.  The remaining length goes through the packets
variable-byte-integer writer, whose failure (none) is a panic in Go. -/
def publishWriteTo (p : PublishFields) : Option (List Nat) :=
  if (strToBytes p.topic).length = 0 ∧ p.topicAlias = 0 then none
  else
    match packetsVBIWrite (publishRemainingLen p) with
    | none => none
    | some rl =>
      some (setFlags (setType 0 3) (publishFlags p) :: rl
        ++ strFieldBytes p.topic
        ++ u16be p.packetIdentifier
        ++ primVBIWrite (publishPropsLen p)
        ++ publishPropsBytes p
        ++ p.payload)

/-- Modelled from the spec (claim C3): the PUBLISH encoder as the claim
describes it — identical layout to publishWriteTo except that the
16-bit packet identifier (and its two bytes of remaining length) is
present only when QoS > 0.  This definition exists to be compared with
publishWriteTo, which is translated from the source. -/
def publishWriteToClaimC3 (p : PublishFields) : Option (List Nat) :=
  if (strToBytes p.topic).length = 0 ∧ p.topicAlias = 0 then none
  else
    let pidBytes := if p.qos > 0 then u16be p.packetIdentifier else []
    let remaining := (2 + (strToBytes p.topic).length) + pidBytes.length
      + primVBILength (publishPropsLen p) false + publishPropsLen p
      + p.payload.length
    match packetsVBIWrite remaining with
    | none => none
    | some rl =>
      some (setFlags (setType 0 3) (publishFlags p) :: rl
        ++ strFieldBytes p.topic
        ++ pidBytes
        ++ primVBIWrite (publishPropsLen p)
        ++ publishPropsBytes p
        ++ p.payload)

/-- One iteration body of the properties loop of Publish.ReadFrom; like
the CONNACK loop, an unrecognised identifier leaves the fields, the
stream and (crucially) the stale count untouched. -/
def publishPropCase (identifier : Nat) (p : PublishFields) (count : Nat)
    (s : List Nat) : Option (PublishFields × Nat × List Nat) :=
  if identifier = 0x02 then
    (rdUint32 s).map fun r => ({ p with messageExpiryInterval := r.1 }, r.2.1, r.2.2)
  else if identifier = 0x23 then
    (rdUint16 s).map fun r => ({ p with topicAlias := r.1 }, r.2.1, r.2.2)
  else if identifier = 0x08 then
    (rdString s).map fun r => ({ p with responseTopic := r.1 }, r.2.1, r.2.2)
  else if identifier = 0x09 then
    (rdString s).map fun r => ({ p with correlationData := r.1 }, r.2.1, r.2.2)
  else if identifier = 0x26 then
    match rdString s with
    | none => none
    | some (k, c1, s1) =>
      match rdString s1 with
      | none => none
      | some (v, c2, s2) =>
        some ({ p with userProperties := p.userProperties ++ [(k, v)] }, c1 + c2, s2)
  else if identifier = 0x0B then
    match primVBIRead s with
    | .ok v c rest => some ({ p with subscriptionIdentifier := v }, c, rest)
    | _ => none
  else if identifier = 0x03 then
    (rdString s).map fun r => ({ p with contentType := r.1 }, r.2.1, r.2.2)
  else
    some (p, count, s)

/-- The properties loop of Publish.ReadFrom (same shape as the CONNACK
properties loop). -/
def publishPropsLoop : Nat → Int → Nat → Nat → PublishFields → List Nat →
    Option (PublishFields × Nat × List Nat)
  | 0, remaining, _, n, p, s =>
    if remaining ≤ 0 then some (p, n, s) else none
  | fuel + 1, remaining, count, n, p, s =>
    if remaining ≤ 0 then some (p, n, s)
    else
      match rdByte s with
      | none => none
      | some (identifier, _, s1) =>
        match publishPropCase identifier p count s1 with
        | none => none
        | some (p2, count2, s2) =>
          publishPropsLoop fuel (remaining - 1 - (count2 : Int)) count2 (n + 1 + count2) p2 s2

/-- packets.Publish.ReadFrom, given the already-read fixed header byte
and remaining length (Poll always supplies them; a zero type in the
header would make the source read the header from the stream first,
a path not exercised here and therefore rejected).  The flags are
decoded from the header; the topic and then the packet identifier are
read unconditionally — there is no QoS test before the identifier read.
Early returns fire as soon as the running count reaches the remaining
length.  The payload is what one Read obtains for the outstanding
byte count. -/
def publishReadFrom (headerByte remaining : Nat) (s : List Nat) :
    Option (PublishFields × Nat × List Nat) :=
  if getType headerByte = 0 then none
  else
    let p0 : PublishFields :=
      { retain := getFlags headerByte &&& 1 ≠ 0
        qos := (getFlags headerByte >>> 1) &&& 3
        duplicate := (getFlags headerByte >>> 3) &&& 1 ≠ 0 }
    match rdString s with
    | none => none
    | some (topicStr, c1, s1) =>
      match rdUint16 s1 with
      | none => none
      | some (pid, c2, s2) =>
        let p1 := { p0 with topic := topicStr, packetIdentifier := pid }
        let n1 := c1 + c2
        if n1 ≥ remaining then some (p1, n1, s2)
        else
          match primVBIRead s2 with
          | .errEof => none
          | .errMalformed => none
          | .ok propsLen c3 s3 =>
            let n2 := n1 + c3
            if n2 ≥ remaining then some (p1, n2, s3)
            else
              match publishPropsLoop propsLen (propsLen : Int) c3 n2 p1 s3 with
              | none => none
              | some (p2, n3, s4) =>
                if (remaining : Int) - (n3 : Int) > 0 then
                  let payloadLen := remaining - n3
                  match rdN payloadLen s4 with
                  | none => none
                  | some (bs, c4, s5) =>
                    some ({ p2 with payload := bs ++ List.replicate (payloadLen - c4) 0 },
                      n3 + c4, s5)
                else some (p2, n3, s4)

/-! ## packets.Connect encoder -/

/-- The fields of packets.Connect. -/
structure ConnectFields where
  version : Nat := 5
  cleanSession : Bool := false
  keepAlive : Nat := 0
  clientId : String := ""
  username : String := ""
  password : String := ""
  willRetain : Bool := false
  willQos : Nat := 0
  will : String := ""
  willTopic : String := ""
  willDelayInterval : Nat := 0
  willMessageExpiryInterval : Nat := 0
  willContentType : String := ""
  willResponseTopic : String := ""
  willCorrelationData : String := ""
  willUserProperties : List (String × String) := []
  requestResponseInformation : Nat := 0
  requestProblemInformation : Nat := 0
  receiveMaximum : Nat := 0
  topicAliasMaximum : Nat := 0
  sessionExpiryInterval : Nat := 0
  maximumPacketSize : Nat := 0
  userProperties : List (String × String) := []
  authenticationMethod : String := ""
  authenticationData : String := ""
deriving DecidableEq, Repr

/-- Variable-header properties length computed by Connect.WriteTo. -/
def connectPropsLen (c : ConnectFields) : Nat :=
  (if c.sessionExpiryInterval > 0 then 5 else 0) +
  (if c.receiveMaximum > 0 then 3 else 0) +
  (if c.maximumPacketSize > 0 then 5 else 0) +
  (if c.topicAliasMaximum > 0 then 3 else 0) +
  (if c.requestResponseInformation > 0 then 2 else 0) +
  (if c.requestProblemInformation > 0 then 2 else 0) +
  (c.userProperties.foldl
    (fun acc kv => acc + 1 + (2 + (strToBytes kv.1).length) + (2 + (strToBytes kv.2).length)) 0) +
  (if (strToBytes c.authenticationMethod).length > 0 then
    (2 + (strToBytes c.authenticationMethod).length + 1)
      + (2 + (strToBytes c.authenticationData).length + 1) else 0)

/-- The variable-header properties section emitted by Connect.WriteTo,
in source order.  The request-response-information property AND the
request-problem-information property are both written under identifier
0x19, and the topic-alias-maximum property under 0x12, exactly as the
source does. -/
def connectPropsBytes (c : ConnectFields) : List Nat :=
  (if c.sessionExpiryInterval > 0 then 0x11 :: u32be c.sessionExpiryInterval else []) ++
  (if c.receiveMaximum > 0 then 0x21 :: u16be c.receiveMaximum else []) ++
  (if c.maximumPacketSize > 0 then 0x27 :: u32be c.maximumPacketSize else []) ++
  (if c.topicAliasMaximum > 0 then 0x12 :: u16be c.topicAliasMaximum else []) ++
  (if c.requestResponseInformation > 0 then [0x19, c.requestResponseInformation % 256] else []) ++
  (if c.requestProblemInformation > 0 then [0x19, c.requestProblemInformation % 256] else []) ++
  (c.userProperties.foldl
    (fun acc kv => acc ++ 0x26 :: (strFieldBytes kv.1 ++ strFieldBytes kv.2)) []) ++
  (if (strToBytes c.authenticationMethod).length > 0 then
    (0x15 :: strFieldBytes c.authenticationMethod)
      ++ (0x16 :: strFieldBytes c.authenticationData) else [])

/-- Will-properties length computed by Connect.WriteTo (only used when
a will is present). -/
def connectWillPropsLen (c : ConnectFields) : Nat :=
  (if c.willDelayInterval > 0 then 5 else 0) +
  (if c.willMessageExpiryInterval > 0 then 5 else 0) +
  (if (strToBytes c.willContentType).length > 0 then 2 + (strToBytes c.willContentType).length + 1 else 0) +
  (if (strToBytes c.willResponseTopic).length > 0 then 2 + (strToBytes c.willResponseTopic).length + 1 else 0) +
  (if (strToBytes c.willCorrelationData).length > 0 then 2 + (strToBytes c.willCorrelationData).length + 1 else 0) +
  (c.willUserProperties.foldl
    (fun acc kv => acc + 1 + (2 + (strToBytes kv.1).length) + (2 + (strToBytes kv.2).length)) 0)

/-- CONNECT flags byte: bit 1 clean start, bit 2 will, bits 3-4 will
QoS, bit 5 will retain, bit 6 password, bit 7 username. -/
def connectFlagsByte (c : ConnectFields) : Nat :=
  (((if c.cleanSession then 2 else 0)
    ||| (if (strToBytes c.username).length > 0 then 128 else 0)
    ||| (if (strToBytes c.password).length > 0 then 64 else 0))
    ||| (if (strToBytes c.will).length > 0 then
      (4 ||| (if c.willRetain then 32 else 0) ||| ((c.willQos <<< 3) % 256)) else 0)) % 256

/-- Payload length computed by Connect.WriteTo: client identifier,
optional username and password, and — when a will is present — one byte
for the payload-format indicator, the will string, the will topic and
the will properties. -/
def connectPayloadLen (c : ConnectFields) : Nat :=
  (2 + (strToBytes c.clientId).length)
  + (if (strToBytes c.username).length > 0 then 2 + (strToBytes c.username).length else 0)
  + (if (strToBytes c.password).length > 0 then 2 + (strToBytes c.password).length else 0)
  + (if (strToBytes c.will).length > 0 then
      (1 + (2 + (strToBytes c.will).length)) + (2 + (strToBytes c.willTopic).length) else 0)
  + connectWillPropsLen c

/-- The payload section emitted by Connect.WriteTo: client identifier,
then (when a will is present) the will-properties length, the will
delay, the always-written payload-format-indicator property (0x01 0x00),
the remaining will properties, the will topic and the will payload;
then the optional username and password. -/
def connectPayloadBytes (c : ConnectFields) : List Nat :=
  strFieldBytes c.clientId ++
  (if (strToBytes c.will).length > 0 then
    primVBIWrite (connectWillPropsLen c)
    ++ (if c.willDelayInterval > 0 then 0x18 :: u32be c.willDelayInterval else [])
    ++ [0x01, 0x00]
    ++ (if c.willMessageExpiryInterval > 0 then 0x12 :: u32be c.willMessageExpiryInterval else [])
    ++ (if (strToBytes c.willContentType).length > 0 then 0x03 :: strFieldBytes c.willContentType else [])
    ++ (if (strToBytes c.willResponseTopic).length > 0 then 0x08 :: strFieldBytes c.willResponseTopic else [])
    ++ (if (strToBytes c.willCorrelationData).length > 0 then 0x09 :: strFieldBytes c.willCorrelationData else [])
    ++ (c.willUserProperties.foldl
        (fun acc kv => acc ++ 0x26 :: (strFieldBytes kv.1 ++ strFieldBytes kv.2)) [])
    ++ strFieldBytes c.willTopic
    ++ strFieldBytes c.will
   else []) ++
  (if (strToBytes c.username).length > 0 then strFieldBytes c.username else []) ++
  (if (strToBytes c.password).length > 0 then strFieldBytes c.password else [])

/-- packets.Connect.WriteTo: fixed header (type CONNECT, remaining
length = 11 + properties length + payload length), protocol name
"MQTT", version, flags, keep alive, properties length, properties,
payload. -/
def connectWriteTo (c : ConnectFields) : Option (List Nat) :=
  let remaining := 11 + connectPropsLen c + connectPayloadLen c
  match packetsVBIWrite remaining with
  | none => none
  | some rl =>
    some (setType 0 1 :: rl
      ++ strFieldBytes "MQTT"
      ++ [c.version % 256]
      ++ [connectFlagsByte c]
      ++ u16be c.keepAlive
      ++ primVBIWrite (connectPropsLen c)
      ++ connectPropsBytes c
      ++ connectPayloadBytes c)

/-! ## Shared concrete states -/

/-- A session that is not connected, with every counter zero (the state
of a freshly constructed client). -/
def disconnectedState : ClientState :=
  { isConnected := false, keepAliveInterval := 0, sessionExpiryInterval := 0,
    clientReceiveMaximum := 0, serverReceiveMaximum := 0, sendQuota := 0, receiveQuota := 0 }

/-! ## Claim C1 -/

/-- A connected session whose receive quota is exhausted. -/
def c1State : ClientState :=
  { isConnected := true, keepAliveInterval := 30, sessionExpiryInterval := 0,
    clientReceiveMaximum := 1, serverReceiveMaximum := 5, sendQuota := 5, receiveQuota := 0 }

/-- Claim C1 (code bug): when Poll decodes a QoS 1 PUBLISH while the
receive quota is 0, the claim (and the SPEC comment in the source) say
the client sends DISCONNECT with reason 0x93, closes the transport and
clears the connected flag.  The code instead calls
disconnectWithReason, whose guard `if c.isConnected` returns
ErrClientNotConnected precisely because the client IS connected, so
Poll returns that error having written nothing, closed nothing, and
left the connected flag true. -/
theorem claim1_receive_quota_zero_poll_returns_error :
    pollPublish c1State 1 1
      = { state := c1State, wrote := [], closedConn := false,
          error := some .clientNotConnected }
    ∧ c1State.isConnected = true ∧ c1State.receiveQuota = 0 := by decide

/-! ## Claim C2 -/

/-- Claim C2, counterexample: a successful CONNACK with an empty
properties block (flags 0, reason 0, properties length 0, remaining
length 3) carries no receive-maximum property; decoding leaves every
Connack field at its zero value, and the Connect bookkeeping then sets
server_receive_maximum to 0 — not to the claimed default of 65 535. -/
theorem claim2_counterexample :
    connackReadFrom 3 [0, 0, 0] = some ({}, 3, [])
    ∧ (connectFinish disconnectedState {} {}).state.serverReceiveMaximum = 0
    ∧ (connectFinish disconnectedState {} {}).state.serverReceiveMaximum ≠ 65535 := by
  decide

/-- Claim C2, amended: after a successful Connect,
server_receive_maximum equals the ReceiveMaximum field of the decoded
CONNACK — which stays 0 when the property is absent, there being no
65 535 default — and send_quota is initialised to
server_receive_maximum, receive_quota to client_receive_maximum, where
client_receive_maximum is the CONNECT value, or the server value when
the CONNECT value is zero. -/
theorem claim2_amended :
    (∀ (s : ClientState) (pkt : ConnectPacketFields) (ck : ConnackFields),
      ck.reasonCode < 128 →
        (connectFinish s pkt ck).state.serverReceiveMaximum = ck.receiveMaximum
        ∧ (connectFinish s pkt ck).state.sendQuota
            = (connectFinish s pkt ck).state.serverReceiveMaximum
        ∧ (connectFinish s pkt ck).state.clientReceiveMaximum
            = (if pkt.receiveMaximum = 0 then ck.receiveMaximum else pkt.receiveMaximum)
        ∧ (connectFinish s pkt ck).state.receiveQuota
            = (connectFinish s pkt ck).state.clientReceiveMaximum)
    ∧ connackReadFrom 3 [0, 0, 0] = some ({}, 3, []) := by
  constructor
  · intro s pkt ck h
    unfold connectFinish
    rw [if_neg (by omega)]
    exact ⟨rfl, rfl, rfl, rfl⟩
  · decide

/-- Witness for claim2_amended at the empty CONNACK. -/
theorem claim2_amended_witness :
    (connectFinish disconnectedState {} {}).state.serverReceiveMaximum
      = ({} : ConnackFields).receiveMaximum
    ∧ connackReadFrom 3 [0, 0, 0] = some ({}, 3, []) :=
  ⟨(claim2_amended.1 disconnectedState {} {} (by decide)).1, claim2_amended.2⟩

/-! ## Claim C3 -/

/-- A QoS 0 PUBLISH: topic "a", no identifier set, payload byte 120. -/
def demoPub : PublishFields := { qos := 0, topic := "a", payload := [120] }

/-- Claim C3, counterexample: encoding the QoS 0 publish demoPub, the
source emits the two packet-identifier bytes between the topic field
and the properties length ([48,7, 0,1,97, 0,0, 0, 120]) whereas the
claimed layout has no identifier bytes ([48,5, 0,1,97, 0, 120]); and
decoding the claimed (identifier-free) layout the source still consumes
two identifier bytes, mis-reading the properties length and payload as
packet identifier 120. -/
theorem claim3_counterexample :
    publishWriteTo demoPub ≠ publishWriteToClaimC3 demoPub
    ∧ publishWriteTo demoPub = some [48, 7, 0, 1, 97, 0, 0, 0, 120]
    ∧ publishWriteToClaimC3 demoPub = some [48, 5, 0, 1, 97, 0, 120]
    ∧ (publishReadFrom 48 5 [0, 1, 97, 0, 120]).map (fun r => r.1.packetIdentifier)
        = some 120 := by decide

/-- Claim C3, amended: the PUBLISH variable header always contains a
16-bit packet identifier between the topic name and the properties,
for every QoS including QoS 0: the encoder writes the two identifier
bytes unconditionally and the decoder reads them back unconditionally.
Shown for every identifier value on a QoS 0 packet with topic "a" and
payload byte 120. -/
theorem claim3_amended : ∀ pid : Nat, pid < 65536 →
    publishWriteTo { qos := 0, topic := "a", packetIdentifier := pid, payload := [120] }
      = some ([48, 7, 0, 1, 97] ++ u16be pid ++ [0, 120])
    ∧ (publishReadFrom 48 7 ([0, 1, 97] ++ u16be pid ++ [0, 120])).map
        (fun r => r.1.packetIdentifier) = some pid := by
  intro pid h
  refine ⟨by with_unfolding_all rfl, ?_⟩
  have h2 : pid / 256 % 256 * 256 + pid % 256 = pid := by omega
  calc (publishReadFrom 48 7 ([0, 1, 97] ++ u16be pid ++ [0, 120])).map
        (fun r => r.1.packetIdentifier)
      = some (pid / 256 % 256 * 256 + pid % 256) := by with_unfolding_all rfl
    _ = some pid := by rw [h2]

/-- Witness for claim3_amended at identifier 258. -/
theorem claim3_amended_witness :
    publishWriteTo { qos := 0, topic := "a", packetIdentifier := 258, payload := [120] }
      = some ([48, 7, 0, 1, 97] ++ u16be 258 ++ [0, 120])
    ∧ (publishReadFrom 48 7 ([0, 1, 97] ++ u16be 258 ++ [0, 120])).map
        (fun r => r.1.packetIdentifier) = some 258 :=
  claim3_amended 258 (by decide)

/-! ## Claim C4 -/

/-- Claim C4: the ten (topic, filter) pairs of the specification table
evaluate under matchTopic exactly as listed. -/
theorem claim4_match_topic_vectors :
    matchTopic "test" "test" = true
    ∧ matchTopic "teststuff" "test" = false
    ∧ matchTopic "test" "#" = true
    ∧ matchTopic "test/extra" "test/#" = true
    ∧ matchTopic "test/extra" "test#" = false
    ∧ matchTopic "test/extra/stuff" "test/+/stuff" = true
    ∧ matchTopic "test/extra/stuff" "test/extra+" = false
    ∧ matchTopic "test/extra/stuff" "+/#" = true
    ∧ matchTopic "test/extra/stuff/that/comes/after" "+/extra/#" = true
    ∧ matchTopic "test/extra/stuff/that/comes/after" "#/extra/stuff/+/comes/after" = false := by
  decide

/-! ## Claim C5 -/

/-- Claim C5, counterexample: the packets decoder returns success on
[0x80,0x80,0x80,0x81] — whose fourth byte has the continuation bit set
— rather than a malformed-packet error, and the primitives decoder
accepts the five-byte continuation [0x80,0x80,0x80,0x80,0x00],
decoding 0 after consuming all five bytes without any error. -/
theorem claim5_counterexample :
    packetsVBIRead [128, 128, 128, 129] 0 = .ok 2097152 4 []
    ∧ primVBIRead [128, 128, 128, 128, 0] = .ok 0 5 [] := by decide

/-- The packets decoder loop never produces the malformed error and
consumes at most n + (34 - m)/7 bytes from multiplier m onwards. -/
theorem packetsVBIReadAux_bound (s : List Nat) :
    ∀ val m n, vbiIsMalformed (packetsVBIReadAux s val m n) = false
      ∧ vbiCount (packetsVBIReadAux s val m n) ≤ n + (34 - m) / 7 := by
  induction s with
  | nil =>
    intro val m n
    simp only [packetsVBIReadAux]
    split <;> constructor <;> simp [vbiIsMalformed, vbiCount]
  | cons d rest ih =>
    intro val m n
    simp only [packetsVBIReadAux]
    split
    · split
      · constructor
        · simp [vbiIsMalformed]
        · simp only [vbiCount]
          omega
      · refine ⟨(ih _ _ _).1, ?_⟩
        refine le_trans (ih _ _ _).2 ?_
        omega
    · constructor
      · simp [vbiIsMalformed]
      · simp only [vbiCount]
        omega

/-- The primitives decoder only returns values that passed its
268 435 455 bound check. -/
theorem primVBIReadAux_le (s : List Nat) :
    ∀ val mul n, vbiOkVal (primVBIReadAux s val mul n) ≤ 268435455 := by
  induction s with
  | nil =>
    intro val mul n
    simp [primVBIReadAux, vbiOkVal]
  | cons b rest ih =>
    intro val mul n
    simp only [primVBIReadAux]
    split
    · simp [vbiOkVal]
    · split
      · simp only [vbiOkVal]
        omega
      · exact ih _ _ _

/-- Claim C5, amended: the packets-package decoder reads at most four
bytes and never reports a malformed-packet error — a continuation bit
on the fourth byte is silently ignored and a five-byte sequence is
truncated after its fourth byte — while the primitives-package decoder
has no byte cap and fails with its malformed error exactly on streams
that drive the accumulated value above 268 435 455 (so every value it
accepts is within range, a five-byte continuation such as
FF FF FF FF 7F is rejected, but 80 80 80 80 00 is accepted as 0). -/
theorem claim5_amended :
    (∀ (s : List Nat) (init : Nat),
      vbiIsMalformed (packetsVBIRead s init) = false
      ∧ vbiCount (packetsVBIRead s init) ≤ 4)
    ∧ (∀ s : List Nat, vbiOkVal (primVBIRead s) ≤ 268435455)
    ∧ primVBIRead [255, 255, 255, 255, 127] = .errMalformed
    ∧ primVBIRead [128, 128, 128, 128, 0] = .ok 0 5 []
    ∧ packetsVBIRead [128, 128, 128, 128, 1] 0 = .ok 0 4 [1] := by
  refine ⟨fun s init => ⟨(packetsVBIReadAux_bound s init 0 0).1, ?_⟩,
    fun s => primVBIReadAux_le s 0 0 0, by decide, by decide, by decide⟩
  have := (packetsVBIReadAux_bound s init 0 0).2
  simpa [packetsVBIRead] using this

/-! ## Claim C6 -/

/-- Claim C6: the eight boundary values encode to their canonical
1/1/2/2/3/3/4/4-byte base-128 little-endian forms, decoding those
bytes restores the value with a consumed count equal to the encoded
length, and encoding 268 435 456 produces no wire encoding (the Go
writer panics re-slicing its capacity-4 buffer). -/
theorem claim6_vbi_roundtrip :
    (packetsVBIWrite 0 = some [0] ∧ packetsVBIRead [0] 0 = .ok 0 1 [])
    ∧ (packetsVBIWrite 127 = some [127] ∧ packetsVBIRead [127] 0 = .ok 127 1 [])
    ∧ (packetsVBIWrite 128 = some [128, 1] ∧ packetsVBIRead [128, 1] 0 = .ok 128 2 [])
    ∧ (packetsVBIWrite 16383 = some [255, 127]
        ∧ packetsVBIRead [255, 127] 0 = .ok 16383 2 [])
    ∧ (packetsVBIWrite 16384 = some [128, 128, 1]
        ∧ packetsVBIRead [128, 128, 1] 0 = .ok 16384 3 [])
    ∧ (packetsVBIWrite 2097151 = some [255, 255, 127]
        ∧ packetsVBIRead [255, 255, 127] 0 = .ok 2097151 3 [])
    ∧ (packetsVBIWrite 2097152 = some [128, 128, 128, 1]
        ∧ packetsVBIRead [128, 128, 128, 1] 0 = .ok 2097152 4 [])
    ∧ (packetsVBIWrite 268435455 = some [255, 255, 255, 127]
        ∧ packetsVBIRead [255, 255, 255, 127] 0 = .ok 268435455 4 [])
    ∧ packetsVBIWrite 268435456 = none := by decide

/-! ## Claim C7 -/

/-- A connected session with an exhausted send quota and a server
receive maximum of 1. -/
def c7State : ClientState :=
  { isConnected := true, keepAliveInterval := 30, sessionExpiryInterval := 0,
    clientReceiveMaximum := 5, serverReceiveMaximum := 1, sendQuota := 0, receiveQuota := 5 }

/-- Claim C7 (code bug): the claim — like the SPEC comment above the
code — says the send quota is incremented on a PUBREC whose reason code
is greater than OR EQUAL to 0x80.  The source tests
`pubrec.ReasonCode > 0x80`, so at reason exactly 0x80, with the quota
strictly below the server receive maximum, Poll leaves the quota
unchanged; at 0x81 it increments. -/
theorem claim7_pubrec_reason_boundary :
    pollPubrec c7State 7 0x80
      = { state := c7State, wrote := [.pubrel 7], closedConn := false, error := none }
    ∧ (pollPubrec c7State 7 0x81).state.sendQuota = 1
    ∧ c7State.sendQuota = 0
    ∧ c7State.sendQuota < c7State.serverReceiveMaximum := by decide

/-! ## Claim C8 -/

/-- Claim C8 (code bug): the guard of DisconnectWithSessionExpiry is
inverted.  For a client whose connected flag is FALSE the source
proceeds to write the DISCONNECT packet (reason 0x04 here, since
publishWill is set) and close the transport; for a CONNECTED client it
returns ErrClientNotConnected — the error whose own message reads "the
client is not connected" — without writing anything.  The claim states
the opposite on both sides. -/
theorem claim8_disconnect_guard :
    disconnectWithSessionExpiry disconnectedState true 5
      = { state := disconnectedState, wrote := [.disconnect 4 0],
          closedConn := true, error := none }
    ∧ disconnectWithSessionExpiry { disconnectedState with isConnected := true } false 0
      = { state := { disconnectedState with isConnected := true }, wrote := [],
          closedConn := false, error := some .clientNotConnected } := by decide

/-! ## Claim C9 -/

/-- A CONNECT packet with both request-response-information and
request-problem-information set. -/
def demoConnect : ConnectFields :=
  { requestResponseInformation := 1, requestProblemInformation := 1 }

/-- Claim C9 (code bug): the claim — echoing MQTT 5 — requires the
request-response-information property under identifier 0x19 and the
request-problem-information property under 0x17.  The source writes
BOTH under 0x19: the emitted properties section is [0x19,1,0x19,1] and
contains no 0x17 byte at all. -/
theorem claim9_connect_properties :
    connectPropsBytes demoConnect = [0x19, 1, 0x19, 1]
    ∧ connectWriteTo demoConnect
      = some [16, 17, 0, 4, 77, 81, 84, 84, 5, 0, 0, 0, 4, 25, 1, 25, 1, 0, 0]
    ∧ ¬ (0x17 ∈ connectPropsBytes demoConnect) := by decide

/-! ## Claim C10 -/

/-- SetType leaves the flag nibble alone and GetType recovers the type,
for every byte-valued header and every type nibble. -/
theorem setType_nibbles :
    ∀ h < 256, ∀ t < 16, getType (setType h t) = t ∧ getFlags (setType h t) = getFlags h := by
  decide

/-- The raw SetFlags update (with the low nibble already masked) sets
the flag nibble and leaves the type nibble alone. -/
theorem setFlags_nibbles :
    ∀ h < 256, ∀ a < 16,
      getFlags ((h &&& ((h &&& 0x0F) ^^^ 0xFF)) ||| a) = a
      ∧ getType ((h &&& ((h &&& 0x0F) ^^^ 0xFF)) ||| a) = getType h := by
  decide

/-- Claim C10: for every byte-valued header h, packet type t in 1..15
and flags byte f: SetType(t) makes GetType return t and leaves GetFlags
unchanged; SetFlags(f) makes GetFlags return f & 0x0F and leaves
GetType unchanged — the two nibbles are independent. -/
theorem claim10_fixed_header_nibbles (h t f : Nat)
    (hh : h < 256) (ht1 : 1 ≤ t) (ht2 : t ≤ 15) (hf : f < 256) :
    getType (setType h t) = t ∧ getFlags (setType h t) = getFlags h
    ∧ getFlags (setFlags h f) = f &&& 0x0F
    ∧ getType (setFlags h f) = getType h := by
  have h1 := setType_nibbles h hh t (by omega)
  have ha : f &&& 0x0F < 16 := lt_of_le_of_lt Nat.and_le_right (by norm_num)
  have h2 := setFlags_nibbles h hh (f &&& 0x0F) ha
  exact ⟨h1.1, h1.2, h2.1, h2.2⟩

/-- Witness for claim10_fixed_header_nibbles at header 0xAB, type 3,
flags 0x5C. -/
theorem claim10_fixed_header_nibbles_witness :
    getType (setType 171 3) = 3 ∧ getFlags (setType 171 3) = getFlags 171
    ∧ getFlags (setFlags 171 92) = 92 &&& 0x0F
    ∧ getType (setFlags 171 92) = getType 171 :=
  claim10_fixed_header_nibbles 171 3 92 (by decide) (by decide) (by decide) (by decide)

